import Mathlib

/-!
Verification development for the electrochem-sim telemetry pipeline.

Shallow embedding of:
- src/services/api/utils/backpressure.py  (BackpressureController, BackpressureMonitor)
- src/services/api/routers/websocket.py   (ConnectionManager, subscribe_to_redis)
- src/services/hal/safety.py              (SafetyWrapper)
- src/services/hal/drivers/base.py        (InstrumentFrame, Waveform, SafetyLimits,
                                           BaseInstrumentDriver.validate_waveform)
- src/services/hal/drivers/mock.py        (MockInstrumentDriver)

Python floats are modelled as rationals (the quantities compared here are
small integer ratios, exactly representable), dictionaries keyed by strings
as functions or association lists, and exceptions as Option-valued error
results paired with the state as mutated before the raise.  Wall-clock
quantities (datetime.now, get_elapsed_time) are passed as explicit
parameters.  Concurrency is modelled by interleaving traces of operations:
an awaited queue.put that completes corresponds to an insertion into a
non-full queue, and an asyncio.wait_for timeout on put corresponds to the
queue being full for the whole wait.
-/

/-- A telemetry frame as seen by the backpressure controller: the only field
the ordering claims inspect is the timestep. -/
structure Frame where
  timestep : Nat
deriving DecidableEq, Repr

/-- Constructor parameters of BackpressureController (backpressure.py lines 79-101). -/
structure BCfg where
  max_queue_size : Nat := 100
  slow_threshold : ℚ := 7/10
  medium_threshold : ℚ := 3/10
  enqueue_timeout : ℚ := 1
deriving DecidableEq, Repr

/-- Mutable state of a BackpressureController (backpressure.py lines 103-110).
The per-reason Prometheus counters frames_dropped_total with labels
slow_client_non_keyframe and queue_full_timeout are modelled as the two
fields dropped_slow and dropped_timeout. -/
structure BState where
  queue : List Frame := []
  frames_dropped : Nat := 0
  frames_transmitted : Nat := 0
  keyframes_preserved : Nat := 0
  dropped_slow : Nat := 0
  dropped_timeout : Nat := 0
deriving DecidableEq, Repr

namespace BackpressureController

/-- backpressure.py line 121-123: qsize divided by max_queue_size. -/
def get_utilization (cfg : BCfg) (st : BState) : ℚ :=
  (st.queue.length : ℚ) / (cfg.max_queue_size : ℚ)

/-- backpressure.py line 125-127: utilization strictly above slow_threshold. -/
def is_slow_client (cfg : BCfg) (st : BState) : Bool :=
  decide (get_utilization cfg st > cfg.slow_threshold)

/-- backpressure.py lines 142-227.  The slow-regime drop happens before any
queue insertion; otherwise the frame is put with a bounded timeout, which in
a sequential interleaving succeeds exactly when the queue has free space and
times out (dropping the frame) when the queue is full throughout the wait.
Returns the mutated state and the boolean result of enqueue. -/
def enqueue (cfg : BCfg) (st : BState) (f : Frame) (is_keyframe : Bool) :
    BState × Bool :=
  if is_slow_client cfg st && !is_keyframe then
    ({ st with frames_dropped := st.frames_dropped + 1,
               dropped_slow := st.dropped_slow + 1 }, false)
  else if st.queue.length < cfg.max_queue_size then
    ({ st with queue := st.queue ++ [f],
               keyframes_preserved :=
                 st.keyframes_preserved + (if is_keyframe then 1 else 0) }, true)
  else
    ({ st with frames_dropped := st.frames_dropped + 1,
               dropped_timeout := st.dropped_timeout + 1 }, false)

/-- backpressure.py lines 229-256.  Pops the head of the FIFO queue and
increments frames_transmitted (the enqueued-at stamp set on every enqueued
frame is truthy, so the increment always fires).  A get on an empty queue
blocks, so in a sequential trace it delivers nothing. -/
def dequeue (st : BState) : BState × Option Frame :=
  match st.queue with
  | [] => (st, none)
  | f :: rest =>
      ({ st with queue := rest,
                 frames_transmitted := st.frames_transmitted + 1 }, some f)

/-- One operation of an interleaved producer/consumer trace. -/
inductive BOp where
  | enq (f : Frame) (is_keyframe : Bool)
  | deq
deriving DecidableEq, Repr

/-- Run one trace operation, accumulating the list of delivered frames. -/
def stepB (cfg : BCfg) (s : BState × List Frame) (op : BOp) : BState × List Frame :=
  match op with
  | .enq f kf => ((enqueue cfg s.1 f kf).1, s.2)
  | .deq =>
      match dequeue s.1 with
      | (st, some f) => (st, s.2 ++ [f])
      | (st, none) => (st, s.2)

/-- Run a whole trace from the freshly initialized controller. -/
def runB (cfg : BCfg) (ops : List BOp) : BState × List Frame :=
  ops.foldl (stepB cfg) ({}, [])

/-- The frames offered via enqueue along a trace, in order. -/
def enqInputs : List BOp → List Frame
  | [] => []
  | .enq f _ :: rest => f :: enqInputs rest
  | .deq :: rest => enqInputs rest

end BackpressureController

namespace BackpressureMonitor

/-- Rounding to two decimal places, modelling the Python round(x, 2) call in
get_global_metrics.  Python rounds half to even on floats; the values proved
about here are never at a midpoint, so half-up rounding is equivalent. -/
def round2 (q : ℚ) : ℚ := (round (q * 100) : ℚ) / 100

/-- backpressure.py lines 346-375, the bandwidth_efficiency field of
get_global_metrics.  A registered controller contributes the pair
(frames_dropped, frames_transmitted); the monitor sums over all registered
controllers. -/
def bandwidth_efficiency (controllers : List (Nat × Nat)) : ℚ :=
  let total_dropped : ℚ := ((controllers.map Prod.fst).sum : ℚ)
  let total_transmitted : ℚ := ((controllers.map Prod.snd).sum : ℚ)
  if total_transmitted + total_dropped > 0 then
    round2 (total_dropped / (total_transmitted + total_dropped) * 100)
  else 0

end BackpressureMonitor

/-!
Published telemetry payloads.  The mock driver (mock.py lines 177-211) yields
InstrumentFrame objects; the telemetry bridge (hal/main.py stream_telemetry)
serializes frame.dict() plus a run_id key and publishes it; the subscriber
task (websocket.py subscribe_to_redis, lines 301-319) reads the payload back
and extracts is_keyframe via frame_data.get with default False.
-/

/-- A JSON-level value of a published telemetry record. -/
inductive JVal where
  | num (q : ℚ)
  | str (s : String)
  | bool (b : Bool)
  | null
deriving DecidableEq, Repr

/-- InstrumentFrame (base.py lines 64-75): the complete field list of the
pydantic model.  The impedance field (a complex number) is modelled as a
pair of rationals. -/
structure InstrumentFrame where
  timestamp : ℚ
  time : ℚ
  voltage : ℚ
  current : ℚ
  charge : Option ℚ := none
  impedance : Option (ℚ × ℚ) := none
  frequency : Option ℚ := none
deriving DecidableEq, Repr

namespace InstrumentFrame

/-- The pydantic frame.dict() serialization used by stream_telemetry: one key
per declared field of InstrumentFrame, in declaration order. -/
def dict (f : InstrumentFrame) : List (String × JVal) :=
  [("timestamp", .num f.timestamp),
   ("time", .num f.time),
   ("voltage", .num f.voltage),
   ("current", .num f.current),
   ("charge", match f.charge with | some q => .num q | none => .null),
   ("impedance", match f.impedance with | some _ => .str "complex" | none => .null),
   ("frequency", match f.frequency with | some q => .num q | none => .null)]

end InstrumentFrame

namespace MockInstrumentDriver

/-- mock.py lines 196-203: the frame constructed at each stream iteration.
Only timestamp, time, voltage and current are set; the remaining
InstrumentFrame fields keep their None defaults. -/
def streamFrame (ts t v i : ℚ) : InstrumentFrame :=
  { timestamp := ts, time := t, voltage := v, current := i }

/-- mock.py lines 177-211: the sequence of frames emitted by one run of
stream, sampled every dt = 1/sampling_rate seconds.  The wall-clock
timestamp, the waveform voltage and the simulated noisy current of the i-th
sample are supplied as oracles (they are real-valued quantities involving
exponentials and RNG noise); the claims settled here depend only on the
structure of the emitted frames, not on those values. -/
def streamFrames (ts v i : Nat → ℚ) (sampling_rate : ℚ) (n : Nat) :
    List InstrumentFrame :=
  (List.range n).map fun k => streamFrame (ts k) (k * (1 / sampling_rate)) (v k) (i k)

end MockInstrumentDriver

/-- hal/main.py stream_telemetry lines 457-467: frame_dict = frame.dict();
frame_dict with run_id added, published as the JSON payload. -/
def publishFrame (f : InstrumentFrame) (run_id : String) : List (String × JVal) :=
  f.dict ++ [("run_id", .str run_id)]

/-- Python dict.get with a default: first (and only) binding of the key, or
the default. -/
def dictGet (d : List (String × JVal)) (k : String) (dflt : JVal) : JVal :=
  match d.find? (fun p => p.1 == k) with
  | some p => p.2
  | none => dflt

/-- websocket.py line 308: is_keyframe = frame_data.get with default False,
then truthiness when passed on as a bool to controller.enqueue. -/
def subscriberIsKeyframe (frame_data : List (String × JVal)) : Bool :=
  match dictGet frame_data "is_keyframe" (.bool false) with
  | .bool b => b
  | .null => false
  | .num q => decide (q ≠ 0)
  | .str s => decide (s ≠ "")


/-!
Safety interlock layer (safety.py) wrapping the mock driver (mock.py).
Exceptions are modelled as an Option-valued error kind returned next to the
state as already mutated when the raise happens.  Wall-clock elapsed time
(driver.get_elapsed_time) is an explicit parameter of the operations that
consult it.
-/

/-- Error kinds raised by the wrapped driver stack: SafetyViolationError
(safety.py line 25), ValueError (base.py validate_waveform), RuntimeError
(mock.py start). -/
inductive HalError where
  | safetyViolation (msg : String)
  | valueError (msg : String)
  | runtimeError (msg : String)
deriving DecidableEq, Repr

/-- SafetyLimits (base.py lines 54-61) with its declared defaults. -/
structure SafetyLimits where
  max_voltage : ℚ := 10
  min_voltage : ℚ := -10
  max_current : ℚ := 1
  min_current : ℚ := -1
  max_duration : ℚ := 3600
  emergency_stop_on_disconnect : Bool := true
deriving DecidableEq, Repr

/-- One record of the violation log (safety.py _record_violation, lines
158-168).  The source stores a type, a message interpolating the offending
value, and a wall-clock timestamp; the timestamp and the number formatting
are omitted here. -/
structure Violation where
  vtype : String
  message : String
deriving DecidableEq, Repr

/-- InstrumentCapability (base.py lines 20-27). -/
inductive InstrumentCapability where
  | CV | CA | CP | EIS | LSV | DPV
deriving DecidableEq, Repr

/-- Waveform (base.py lines 43-51).  The field named type in the source is
wtype here; initial_value and duration are required fields, the rest are
optional. -/
structure Waveform where
  wtype : String
  duration : ℚ
  initial_value : ℚ
  final_value : Option ℚ := none
  scan_rate : Option ℚ := none
  frequency : Option ℚ := none
  amplitude : Option ℚ := none
deriving DecidableEq, Repr

/-- InstrumentStatus (base.py lines 78-84). -/
inductive InstrumentStatus where
  | DISCONNECTED | IDLE | RUNNING | PAUSED | ERROR
deriving DecidableEq, Repr

/-- State of a MockInstrumentDriver (mock.py plus the base-class state of
base.py lines 107-117).  programCalls and estopCalls count invocations of
program and emergency_stop on the underlying driver; they model the mock-spy
observations the claims assert about and do not influence behaviour. -/
structure MockState where
  running : Bool := false
  status : InstrumentStatus := .DISCONNECTED
  current_voltage : ℚ := 0
  current_current : ℚ := 0
  waveform : Option Waveform := none
  technique : Option InstrumentCapability := none
  programCalls : Nat := 0
  estopCalls : Nat := 0
deriving DecidableEq, Repr

/-- The capability list of the mock driver (mock.py lines 44-49). -/
def mockCapabilities : List InstrumentCapability := [.CV, .CA, .CP, .LSV]

/-- base.py validate_waveform (lines 278-314): checks initial_value,
final_value and duration against the DRIVER-side safety_limits, which the
base-class constructor always sets to the SafetyLimits defaults.  Raises
ValueError (returned as some message); mutates nothing. -/
def validate_waveform (w : Waveform) : Option String :=
  let lim : SafetyLimits := {}
  if w.initial_value > lim.max_voltage then some "initial voltage exceeds maximum"
  else if w.initial_value < lim.min_voltage then some "initial voltage below minimum"
  else match w.final_value with
  | some fv =>
      if fv > lim.max_voltage then some "final voltage exceeds maximum"
      else if fv < lim.min_voltage then some "final voltage below minimum"
      else if w.duration > lim.max_duration then some "duration exceeds maximum"
      else none
  | none =>
      if w.duration > lim.max_duration then some "duration exceeds maximum"
      else none

namespace MockInstrumentDriver

/-- mock.py program (lines 99-115): validate_waveform, capability check,
then store the waveform and technique. -/
def program (d : MockState) (w : Waveform) (tech : InstrumentCapability) :
    MockState × Option HalError :=
  let d := { d with programCalls := d.programCalls + 1 }
  match validate_waveform w with
  | some msg => (d, some (.valueError msg))
  | none =>
      if tech ∉ mockCapabilities then
        (d, some (.valueError "technique not supported"))
      else
        ({ d with waveform := some w, technique := some tech }, none)

/-- mock.py start (lines 117-126): RuntimeError without a programmed
waveform, otherwise set running and RUNNING status. -/
def start (d : MockState) : MockState × Option HalError :=
  match d.waveform with
  | none => (d, some (.runtimeError "No waveform programmed"))
  | some _ => ({ d with running := true, status := .RUNNING }, none)

/-- mock.py resume (lines 134-138): unconditionally set running. -/
def resume (d : MockState) : MockState :=
  { d with running := true, status := .RUNNING }

/-- mock.py emergency_stop (lines 148-154): stop and zero the outputs. -/
def emergency_stop (d : MockState) : MockState :=
  { d with running := false, status := .IDLE,
           current_voltage := 0, current_current := 0,
           estopCalls := d.estopCalls + 1 }

/-- mock.py set_voltage (lines 156-158). -/
def set_voltage (d : MockState) (v : ℚ) : MockState :=
  { d with current_voltage := v }

/-- mock.py set_current (lines 160-162). -/
def set_current (d : MockState) (i : ℚ) : MockState :=
  { d with current_current := i }

end MockInstrumentDriver

/-- State of a SafetyWrapper around a mock driver (safety.py lines 56-80). -/
structure WState where
  limits : SafetyLimits := {}
  violations : List Violation := []
  emergency_stopped : Bool := false
  driver : MockState := {}
deriving DecidableEq, Repr

namespace SafetyWrapper

/-- safety.py _record_violation (lines 158-168): append to the log. -/
def record_violation (w : WState) (t m : String) : WState :=
  { w with violations := w.violations ++ [⟨t, m⟩] }

/-- safety.py _check_voltage (lines 84-110): record a violation and raise on
either bound. -/
def check_voltage (w : WState) (v : ℚ) : WState × Option HalError :=
  if v > w.limits.max_voltage then
    (record_violation w "voltage_too_high" "voltage exceeds maximum",
     some (.safetyViolation "voltage exceeds maximum"))
  else if v < w.limits.min_voltage then
    (record_violation w "voltage_too_low" "voltage below minimum",
     some (.safetyViolation "voltage below minimum"))
  else (w, none)

/-- safety.py _check_current (lines 112-138). -/
def check_current (w : WState) (i : ℚ) : WState × Option HalError :=
  if i > w.limits.max_current then
    (record_violation w "current_too_high" "current exceeds maximum",
     some (.safetyViolation "current exceeds maximum"))
  else if i < w.limits.min_current then
    (record_violation w "current_too_low" "current below minimum",
     some (.safetyViolation "current below minimum"))
  else (w, none)

/-- safety.py _check_timeout (lines 140-156); elapsed is the value of
driver.get_elapsed_time at the call. -/
def check_timeout (w : WState) (elapsed : ℚ) : WState × Option HalError :=
  if elapsed > w.limits.max_duration then
    (record_violation w "timeout_exceeded" "experiment duration exceeds maximum",
     some (.safetyViolation "timeout exceeded"))
  else (w, none)

/-- safety.py set_voltage (lines 259-277): _check_voltage, then if the
driver is running _check_timeout, then the driver call. -/
def set_voltage (w : WState) (v : ℚ) (elapsed : ℚ) : WState × Option HalError :=
  match check_voltage w v with
  | (w, some e) => (w, some e)
  | (w, none) =>
      if w.driver.running then
        match check_timeout w elapsed with
        | (w, some e) => (w, some e)
        | (w, none) => ({ w with driver := MockInstrumentDriver.set_voltage w.driver v }, none)
      else ({ w with driver := MockInstrumentDriver.set_voltage w.driver v }, none)

/-- safety.py set_current (lines 279-297). -/
def set_current (w : WState) (i : ℚ) (elapsed : ℚ) : WState × Option HalError :=
  match check_current w i with
  | (w, some e) => (w, some e)
  | (w, none) =>
      if w.driver.running then
        match check_timeout w elapsed with
        | (w, some e) => (w, some e)
        | (w, none) => ({ w with driver := MockInstrumentDriver.set_current w.driver i }, none)
      else ({ w with driver := MockInstrumentDriver.set_current w.driver i }, none)

/-- safety.py program (lines 184-215): driver validate_waveform first (a
ValueError propagates before any wrapper-side check), then _check_voltage on
initial_value (and final_value when present) for step, ramp and triangle
waveforms, then the duration gate raising SafetyViolationError without
recording, then the driver program call. -/
def program (w : WState) (wf : Waveform) (tech : InstrumentCapability) :
    WState × Option HalError :=
  match validate_waveform wf with
  | some msg => (w, some (.valueError msg))
  | none =>
      let afterChecks : WState × Option HalError :=
        if wf.wtype = "step" ∨ wf.wtype = "ramp" ∨ wf.wtype = "triangle" then
          match check_voltage w wf.initial_value with
          | (w, some e) => (w, some e)
          | (w, none) =>
              match wf.final_value with
              | some fv => check_voltage w fv
              | none => (w, none)
        else (w, none)
      match afterChecks with
      | (w, some e) => (w, some e)
      | (w, none) =>
          if wf.duration > w.limits.max_duration then
            (w, some (.safetyViolation "waveform duration exceeds maximum"))
          else
            let (d, e) := MockInstrumentDriver.program w.driver wf tech
            ({ w with driver := d }, e)

/-- safety.py start (lines 217-225): fail when the latch is set, otherwise
delegate to the driver. -/
def start (w : WState) : WState × Option HalError :=
  if w.emergency_stopped then
    (w, some (.safetyViolation "Cannot start: Emergency stop active. Reset required."))
  else
    let (d, e) := MockInstrumentDriver.start w.driver
    ({ w with driver := d }, e)

/-- safety.py resume (lines 231-234): _check_timeout then driver resume; the
latch is not consulted. -/
def resume (w : WState) (elapsed : ℚ) : WState × Option HalError :=
  match check_timeout w elapsed with
  | (w, some e) => (w, some e)
  | (w, none) => ({ w with driver := MockInstrumentDriver.resume w.driver }, none)

/-- safety.py emergency_stop (lines 240-257): set the latch, record an
emergency_stop violation, call the driver emergency_stop. -/
def emergency_stop (w : WState) : WState :=
  let w := { w with emergency_stopped := true }
  let w := record_violation w "emergency_stop" "Emergency stop activated"
  { w with driver := MockInstrumentDriver.emergency_stop w.driver }

/-- safety.py reset_emergency_stop (lines 360-368). -/
def reset_emergency_stop (w : WState) : WState :=
  { w with emergency_stopped := false }

end SafetyWrapper

/-!
ConnectionManager (websocket.py lines 75-227).  The four per-connection
dictionaries are modelled as functions from keys to optional values; the
per-user run-id Python set is a duplicate-free list grown by add and shrunk
by discard.  Sockets, controllers and Redis subscriber tasks are identified
by abstract numeric ids.
-/

/-- State of a ConnectionManager (websocket.py lines 85-103). -/
structure CMState where
  max_connections_per_user : Nat := 3
  active_connections : String → Option Nat := fun _ => none
  controllers : String → Option Nat := fun _ => none
  redis_tasks : String → Option Nat := fun _ => none
  user_connections : String → List String := fun _ => []

/-- Python set.add: append only when absent. -/
def setAdd (l : List String) (r : String) : List String :=
  if r ∈ l then l else l ++ [r]

/-- Python set.discard: remove every occurrence. -/
def setDiscard (l : List String) (r : String) : List String :=
  l.filter (fun x => x ≠ r)

namespace ConnectionManager

/-- websocket.py lines 105-107. -/
def get_user_connection_count (s : CMState) (user_id : String) : Nat :=
  (s.user_connections user_id).length

/-- websocket.py lines 109-112. -/
def can_connect (s : CMState) (user_id : String) : Bool :=
  get_user_connection_count s user_id < s.max_connections_per_user

/-- Result of connect (websocket.py lines 114-181): either the accepted
mutated state, or the HTTPException with status 429 raised on quota
exceed. -/
inductive ConnectResult where
  | accepted (s : CMState)
  | quotaExceeded429

/-- websocket.py connect: quota check first; on success register the socket,
the fresh controller and the Redis subscriber task under the run_id key
(overwriting any previous binding) and add the run_id to the per-user
set. -/
def connect (s : CMState) (ws ctrl task : Nat) (run_id user_id : String) :
    ConnectResult :=
  if ¬ can_connect s user_id then .quotaExceeded429
  else .accepted
    { s with
      active_connections := fun k => if k = run_id then some ws else s.active_connections k,
      controllers := fun k => if k = run_id then some ctrl else s.controllers k,
      redis_tasks := fun k => if k = run_id then some task else s.redis_tasks k,
      user_connections := fun k =>
        if k = user_id then setAdd (s.user_connections user_id) run_id
        else s.user_connections k }

/-- websocket.py disconnect (lines 183-227): remove the run_id bindings and
discard the run_id from the per-user set. -/
def disconnect (s : CMState) (run_id user_id : String) : CMState :=
  { s with
    active_connections := fun k => if k = run_id then none else s.active_connections k,
    controllers := fun k => if k = run_id then none else s.controllers k,
    redis_tasks := fun k => if k = run_id then none else s.redis_tasks k,
    user_connections := fun k =>
      if k = user_id then setDiscard (s.user_connections user_id) run_id
      else s.user_connections k }

/-- An event of the connection-manager life cycle. -/
inductive CMOp where
  | conn (ws ctrl task : Nat) (run_id user_id : String)
  | disc (run_id user_id : String)

/-- Apply one event: a rejected connect leaves the state unchanged. -/
def stepCM (s : CMState) (op : CMOp) : CMState :=
  match op with
  | .conn ws ctrl task run_id user_id =>
      match connect s ws ctrl task run_id user_id with
      | .accepted s => s
      | .quotaExceeded429 => s
  | .disc run_id user_id => disconnect s run_id user_id

/-- Run a sequence of events from a freshly initialized manager with the
given per-user limit. -/
def runCM (limit : Nat) (ops : List CMOp) : CMState :=
  ops.foldl stepCM { max_connections_per_user := limit }

end ConnectionManager

/-!
Theorems.  Each claim of the specification corresponds to one theorem below.
-/

/-- C1 (code evaluation at the failing input): on a fresh default-limit
session, set_voltage 15 and set_current 5 fail with SafetyViolationError and
record the violation, but the latch is NOT set and the driver
emergency_stop is NOT invoked; program with a step waveform of
initial_value 15 fails with the ValueError raised by the driver-side
validate_waveform, records no violation, sets no latch, and never reaches
the driver program method. -/
theorem safety_violation_no_latch_C1 :
    ((SafetyWrapper.set_voltage {} 15 0).2 =
        some (.safetyViolation "voltage exceeds maximum")) ∧
    ((SafetyWrapper.set_voltage {} 15 0).1.violations =
        [⟨"voltage_too_high", "voltage exceeds maximum"⟩]) ∧
    ((SafetyWrapper.set_voltage {} 15 0).1.emergency_stopped = false) ∧
    ((SafetyWrapper.set_voltage {} 15 0).1.driver.estopCalls = 0) ∧
    ((SafetyWrapper.set_current {} 5 0).2 =
        some (.safetyViolation "current exceeds maximum")) ∧
    ((SafetyWrapper.set_current {} 5 0).1.violations =
        [⟨"current_too_high", "current exceeds maximum"⟩]) ∧
    ((SafetyWrapper.set_current {} 5 0).1.emergency_stopped = false) ∧
    ((SafetyWrapper.set_current {} 5 0).1.driver.estopCalls = 0) ∧
    ((SafetyWrapper.program {} ⟨"step", 10, 15, none, none, none, none⟩ .CV).2 =
        some (.valueError "initial voltage exceeds maximum")) ∧
    ((SafetyWrapper.program {} ⟨"step", 10, 15, none, none, none, none⟩ .CV).1 =
        ({} : WState)) := by
  decide

/-- C3 counterexample: after emergency_stop on a fresh session the latch is
set, yet resume succeeds (and even restarts the driver), an in-range
set_voltage succeeds, and an in-range set_current succeeds, all without any
reset - refuting the claim that every subsequent
set_voltage/set_current/resume fails with emergency-stop-active. -/
theorem latch_C3_counterexample :
    (SafetyWrapper.emergency_stop {}).emergency_stopped = true ∧
    (SafetyWrapper.resume (SafetyWrapper.emergency_stop {}) 0).2 = none ∧
    (SafetyWrapper.resume (SafetyWrapper.emergency_stop {}) 0).1.driver.running = true ∧
    (SafetyWrapper.set_voltage (SafetyWrapper.emergency_stop {}) 5 0).2 = none ∧
    (SafetyWrapper.set_current (SafetyWrapper.emergency_stop {}) 1 0).2 = none := by
  decide

/-- C3 amended: on a latched session start fails with the
emergency-stop-active SafetyViolationError (and mutates nothing) until
reset_emergency_stop clears the latch, but resume is gated only by the
duration check and set_voltage/set_current only by the range (and, when the
driver is running, duration) checks: the latch does not block them. -/
theorem latch_C3 (w : WState) (elapsed v i : ℚ)
    (hl : w.emergency_stopped = true) :
    ((SafetyWrapper.start w).2 =
        some (.safetyViolation "Cannot start: Emergency stop active. Reset required.") ∧
      (SafetyWrapper.start w).1 = w) ∧
    ((SafetyWrapper.reset_emergency_stop w).emergency_stopped = false) ∧
    (elapsed ≤ w.limits.max_duration → (SafetyWrapper.resume w elapsed).2 = none) ∧
    (v ≤ w.limits.max_voltage → w.limits.min_voltage ≤ v → w.driver.running = false →
      (SafetyWrapper.set_voltage w v elapsed).2 = none) ∧
    (i ≤ w.limits.max_current → w.limits.min_current ≤ i → w.driver.running = false →
      (SafetyWrapper.set_current w i elapsed).2 = none) := by
  refine ⟨⟨?_, ?_⟩, ?_, ?_, ?_, ?_⟩
  · simp [SafetyWrapper.start, hl]
  · simp [SafetyWrapper.start, hl]
  · simp [SafetyWrapper.reset_emergency_stop]
  · intro h
    simp [SafetyWrapper.resume, SafetyWrapper.check_timeout, not_lt.2 h]
  · intro h1 h2 h3
    simp [SafetyWrapper.set_voltage, SafetyWrapper.check_voltage,
          not_lt.2 h1, not_lt.2 h2, h3]
  · intro h1 h2 h3
    simp [SafetyWrapper.set_current, SafetyWrapper.check_current,
          not_lt.2 h1, not_lt.2 h2, h3]

/-- C3 witness: the amended theorem applied to the concrete latched session
produced by emergency_stop on a fresh default session. -/
theorem latch_C3_witness :
    (SafetyWrapper.start (SafetyWrapper.emergency_stop {})).2 =
        some (.safetyViolation "Cannot start: Emergency stop active. Reset required.") ∧
    (SafetyWrapper.reset_emergency_stop
        (SafetyWrapper.emergency_stop {})).emergency_stopped = false ∧
    (SafetyWrapper.resume (SafetyWrapper.emergency_stop {}) 0).2 = none := by
  have h := latch_C3 (SafetyWrapper.emergency_stop {}) 0 5 1 (by decide)
  exact ⟨h.1.1, h.2.1, h.2.2.1 (by decide)⟩

/-- C4 counterexample: in a 10-frame run of the mock stream (sampling rate
100 Hz) the 10th emitted frame is a plain InstrumentFrame; its published
payload contains no is_keyframe key at all, and the subscriber-side
extraction frame_data.get therefore yields False for it, refuting the claim
that every 10th mock frame carries an is_keyframe flag set to true. -/
theorem mock_keyframe_C4_counterexample :
    ((MockInstrumentDriver.streamFrames (fun _ => 0) (fun _ => 0) (fun _ => 0)
        100 10).getD 9 (MockInstrumentDriver.streamFrame 0 0 0 0) =
      MockInstrumentDriver.streamFrame 0 (9/100) 0 0) ∧
    (dictGet (publishFrame (MockInstrumentDriver.streamFrame 0 (9/100) 0 0) "run1")
        "is_keyframe" .null = .null) ∧
    (subscriberIsKeyframe
        (publishFrame (MockInstrumentDriver.streamFrame 0 (9/100) 0 0) "run1") =
      false) := by
  refine ⟨?_, ?_, ?_⟩
  · simp [MockInstrumentDriver.streamFrames, MockInstrumentDriver.streamFrame]
    norm_num
  · simp [dictGet, publishFrame, InstrumentFrame.dict, MockInstrumentDriver.streamFrame]
  · simp [subscriberIsKeyframe, dictGet, publishFrame, InstrumentFrame.dict,
          MockInstrumentDriver.streamFrame]

/-- C4 amended: frames emitted by the mock driver stream carry no
is_keyframe flag (InstrumentFrame has no such field), the telemetry bridge
publishes them without one, and the subscriber-side backpressure controller
receives is_keyframe = false for every mock-driver frame; the every-10th
keyframe cadence exists only in the simulation-worker frame source. -/
theorem mock_keyframe_C4 (ts v i : Nat → ℚ) (sr : ℚ) (n : Nat) (rid : String) :
    ∀ f ∈ MockInstrumentDriver.streamFrames ts v i sr n,
      dictGet (publishFrame f rid) "is_keyframe" (.bool false) = .bool false ∧
      subscriberIsKeyframe (publishFrame f rid) = false := by
  intro f hf
  simp only [MockInstrumentDriver.streamFrames, List.mem_map] at hf
  obtain ⟨k, -, rfl⟩ := hf
  constructor
  · simp [dictGet, publishFrame, InstrumentFrame.dict, MockInstrumentDriver.streamFrame]
  · simp [subscriberIsKeyframe, dictGet, publishFrame, InstrumentFrame.dict,
          MockInstrumentDriver.streamFrame]

/-- C4 witness: the amended theorem applied to the single frame of a
one-sample run. -/
theorem mock_keyframe_C4_witness :
    (MockInstrumentDriver.streamFrame 0 0 0 0 ∈
      MockInstrumentDriver.streamFrames (fun _ => 0) (fun _ => 0) (fun _ => 0) 1 1) ∧
    subscriberIsKeyframe
      (publishFrame (MockInstrumentDriver.streamFrame 0 0 0 0) "run1") = false := by
  have hm : MockInstrumentDriver.streamFrame 0 0 0 0 ∈
      MockInstrumentDriver.streamFrames (fun _ => 0) (fun _ => 0) (fun _ => 0) 1 1 := by
    simp [MockInstrumentDriver.streamFrames, MockInstrumentDriver.streamFrame]
  exact ⟨hm, (mock_keyframe_C4 (fun _ => 0) (fun _ => 0) (fun _ => 0) 1 1 "run1"
    (MockInstrumentDriver.streamFrame 0 0 0 0) hm).2⟩

/-- C8 counterexample: with one registered controller that has dropped 1
frame and transmitted 1 frame, get_global_metrics reports
bandwidth_efficiency 50 (a percentage), while the claimed value
dropped / (dropped + transmitted) is 1/2. -/
theorem bandwidth_efficiency_C8_counterexample :
    BackpressureMonitor.bandwidth_efficiency [(1, 1)] = 50 ∧
    ((1 : ℚ) / ((1 : ℚ) + (1 : ℚ)) = 1/2) ∧
    (50 : ℚ) ≠ 1/2 := by
  refine ⟨?_, by norm_num, by norm_num⟩
  simp only [BackpressureMonitor.bandwidth_efficiency, BackpressureMonitor.round2]
  norm_num [round_eq]

/-- C8 amended: the aggregated bandwidth_efficiency equals
100 * dropped / (dropped + transmitted) rounded to two decimal places when
dropped + transmitted is positive, and 0 when dropped + transmitted is 0,
where dropped and transmitted are the sums over registered controllers. -/
theorem bandwidth_efficiency_C8 (controllers : List (Nat × Nat)) :
    ((((controllers.map Prod.fst).sum : ℚ) + ((controllers.map Prod.snd).sum : ℚ) > 0) →
      BackpressureMonitor.bandwidth_efficiency controllers =
        BackpressureMonitor.round2
          (100 * ((controllers.map Prod.fst).sum : ℚ) /
            (((controllers.map Prod.fst).sum : ℚ) + ((controllers.map Prod.snd).sum : ℚ)))) ∧
    ((((controllers.map Prod.fst).sum : ℚ) + ((controllers.map Prod.snd).sum : ℚ) = 0) →
      BackpressureMonitor.bandwidth_efficiency controllers = 0) := by
  constructor
  · intro h
    simp only [BackpressureMonitor.bandwidth_efficiency]
    rw [if_pos (by linarith)]
    ring_nf
  · intro h
    have hz : ((controllers.map Prod.snd).sum : ℚ) +
        ((controllers.map Prod.fst).sum : ℚ) = 0 := by
      rw [add_comm]; exact h
    simp only [BackpressureMonitor.bandwidth_efficiency]
    rw [hz]
    simp

/-- C8 witness: the amended theorem applied to the concrete monitor states
with controllers [(1, 1)] and with no registered controllers. -/
theorem bandwidth_efficiency_C8_witness :
    BackpressureMonitor.bandwidth_efficiency [(1, 1)] =
      BackpressureMonitor.round2
        (100 * (([(1, 1)].map (Prod.fst (α := Nat) (β := Nat))).sum : ℚ) /
          ((([(1, 1)].map (Prod.fst (α := Nat) (β := Nat))).sum : ℚ) +
            (([(1, 1)].map (Prod.snd (α := Nat) (β := Nat))).sum : ℚ))) ∧
    BackpressureMonitor.bandwidth_efficiency ([] : List (Nat × Nat)) = 0 := by
  exact ⟨(bandwidth_efficiency_C8 [(1, 1)]).1 (by norm_num),
         (bandwidth_efficiency_C8 []).2 (by norm_num)⟩

/-- C2: when utilization exceeds slow_threshold and the frame is not a
keyframe, enqueue drops it before any queue insertion, counts it under
slow_client_non_keyframe and returns false; in every other case the frame
is put with the bounded timeout, which inserts it (returning true) when the
queue has free space and otherwise times out, dropping the frame, counting
it under queue_full_timeout and returning false. -/
theorem enqueue_policy_C2 (cfg : BCfg) (st : BState) (f : Frame) (kf : Bool) :
    (BackpressureController.get_utilization cfg st > cfg.slow_threshold ∧ kf = false →
      (BackpressureController.enqueue cfg st f kf).2 = false ∧
      (BackpressureController.enqueue cfg st f kf).1.queue = st.queue ∧
      (BackpressureController.enqueue cfg st f kf).1.dropped_slow = st.dropped_slow + 1 ∧
      (BackpressureController.enqueue cfg st f kf).1.frames_dropped =
        st.frames_dropped + 1) ∧
    (¬ (BackpressureController.get_utilization cfg st > cfg.slow_threshold ∧ kf = false) →
      (st.queue.length < cfg.max_queue_size →
        (BackpressureController.enqueue cfg st f kf).1.queue = st.queue ++ [f] ∧
        (BackpressureController.enqueue cfg st f kf).2 = true) ∧
      (¬ st.queue.length < cfg.max_queue_size →
        (BackpressureController.enqueue cfg st f kf).2 = false ∧
        (BackpressureController.enqueue cfg st f kf).1.queue = st.queue ∧
        (BackpressureController.enqueue cfg st f kf).1.dropped_timeout =
          st.dropped_timeout + 1 ∧
        (BackpressureController.enqueue cfg st f kf).1.frames_dropped =
          st.frames_dropped + 1)) := by
  unfold BackpressureController.enqueue BackpressureController.is_slow_client
  by_cases hs : BackpressureController.get_utilization cfg st > cfg.slow_threshold <;>
    by_cases hq : st.queue.length < cfg.max_queue_size <;>
      cases kf <;> simp [hs, hq]

/-- C2 witness: the policy theorem applied, with the default configuration,
to a 71-full queue with a non-keyframe (slow-regime drop), to an empty queue
(insertion), and to a 100-full queue with a keyframe (timeout drop). -/
theorem enqueue_policy_C2_witness :
    ((BackpressureController.enqueue {} { queue := List.replicate 71 ⟨0⟩ } ⟨5⟩ false).2 =
        false ∧
      (BackpressureController.enqueue {} { queue := List.replicate 71 ⟨0⟩ } ⟨5⟩
          false).1.dropped_slow = 1) ∧
    ((BackpressureController.enqueue {} {} ⟨5⟩ false).2 = true) ∧
    ((BackpressureController.enqueue {} { queue := List.replicate 100 ⟨0⟩ } ⟨5⟩ true).2 =
        false ∧
      (BackpressureController.enqueue {} { queue := List.replicate 100 ⟨0⟩ } ⟨5⟩
          true).1.dropped_timeout = 1) := by
  have h1 := (enqueue_policy_C2 {} { queue := List.replicate 71 ⟨0⟩ } ⟨5⟩ false).1
    (by constructor
        · norm_num [BackpressureController.get_utilization]
        · rfl)
  have h2 := ((enqueue_policy_C2 {} {} ⟨5⟩ false).2
    (by norm_num [BackpressureController.get_utilization])).1 (by norm_num)
  have h3 := ((enqueue_policy_C2 {} { queue := List.replicate 100 ⟨0⟩ } ⟨5⟩ true).2
    (by simp)).2 (by norm_num)
  exact ⟨⟨h1.1, h1.2.2.1⟩, h2.2, h3.1, h3.2.2.1⟩

/-- C10: enqueue returns true exactly when the frame was appended to the
queue; every false return leaves the queue, frames_transmitted and
keyframes_preserved unchanged and increments frames_dropped by one; every
true return leaves frames_dropped and frames_transmitted unchanged and
increments keyframes_preserved exactly when the frame is a keyframe. -/
theorem enqueue_effect_C10 (cfg : BCfg) (st : BState) (f : Frame) (kf : Bool) :
    ((BackpressureController.enqueue cfg st f kf).2 = true ↔
      (BackpressureController.enqueue cfg st f kf).1.queue = st.queue ++ [f]) ∧
    ((BackpressureController.enqueue cfg st f kf).2 = false →
      (BackpressureController.enqueue cfg st f kf).1.queue = st.queue ∧
      (BackpressureController.enqueue cfg st f kf).1.frames_transmitted =
        st.frames_transmitted ∧
      (BackpressureController.enqueue cfg st f kf).1.keyframes_preserved =
        st.keyframes_preserved ∧
      (BackpressureController.enqueue cfg st f kf).1.frames_dropped =
        st.frames_dropped + 1) ∧
    ((BackpressureController.enqueue cfg st f kf).2 = true →
      (BackpressureController.enqueue cfg st f kf).1.frames_dropped = st.frames_dropped ∧
      (BackpressureController.enqueue cfg st f kf).1.frames_transmitted =
        st.frames_transmitted ∧
      (BackpressureController.enqueue cfg st f kf).1.keyframes_preserved =
        st.keyframes_preserved + (if kf = true then 1 else 0)) := by
  unfold BackpressureController.enqueue
  by_cases hs : BackpressureController.is_slow_client cfg st = true <;>
    by_cases hq : st.queue.length < cfg.max_queue_size <;>
      cases kf <;>
        simp [hs, hq, List.self_eq_append_right]

/-- C10 witness: the frame-effect theorem applied to a keyframe enqueued
into the empty default controller (a true return) and to a non-keyframe
offered to a full queue (a false return). -/
theorem enqueue_effect_C10_witness :
    ((BackpressureController.enqueue {} {} ⟨7⟩ true).1.queue = [⟨7⟩] ∧
      (BackpressureController.enqueue {} {} ⟨7⟩ true).1.keyframes_preserved = 1) ∧
    ((BackpressureController.enqueue {} { queue := List.replicate 100 ⟨0⟩ } ⟨8⟩
        true).1.frames_dropped = 1) := by
  have ht : (BackpressureController.enqueue {} {} ⟨7⟩ true).2 = true := by
    norm_num [BackpressureController.enqueue, BackpressureController.is_slow_client,
      BackpressureController.get_utilization]
  have hf : (BackpressureController.enqueue {} { queue := List.replicate 100 ⟨0⟩ } ⟨8⟩
      true).2 = false := by
    norm_num [BackpressureController.enqueue, BackpressureController.is_slow_client,
      BackpressureController.get_utilization]
  have h1 := (enqueue_effect_C10 {} {} ⟨7⟩ true).2.2 ht
  have h0 := (enqueue_effect_C10 {} {} ⟨7⟩ true).1.mp ht
  have h2 := (enqueue_effect_C10 {} { queue := List.replicate 100 ⟨0⟩ } ⟨8⟩ true).2.1 hf
  refine ⟨⟨by simpa using h0, by simpa using h1.2.2⟩, by simpa using h2.2.2.2⟩

/-- Helper: one enqueue leaves the queue unchanged or appends the frame. -/
theorem enqueue_queue_cases (cfg : BCfg) (st : BState) (f : Frame) (kf : Bool) :
    (BackpressureController.enqueue cfg st f kf).1.queue = st.queue ∨
    (BackpressureController.enqueue cfg st f kf).1.queue = st.queue ++ [f] := by
  unfold BackpressureController.enqueue
  split
  · left; rfl
  · split
    · right; rfl
    · left; rfl

/-- Helper: every trace step preserves the queue-size bound. -/
theorem stepB_queue_le (cfg : BCfg) (s : BState × List Frame) (op : BackpressureController.BOp)
    (h : s.1.queue.length ≤ cfg.max_queue_size) :
    (BackpressureController.stepB cfg s op).1.queue.length ≤ cfg.max_queue_size := by
  cases op with
  | enq f kf =>
      show (BackpressureController.enqueue cfg s.1 f kf).1.queue.length ≤ _
      unfold BackpressureController.enqueue
      split
      · exact h
      · split
        · next hlt => simpa using hlt
        · exact h
  | deq =>
      cases hq : s.1.queue with
      | nil =>
          simp [BackpressureController.stepB, BackpressureController.dequeue, hq]
      | cons a rest =>
          have : rest.length ≤ cfg.max_queue_size := by
            have := h; rw [hq] at this; simp at this; omega
          simpa [BackpressureController.stepB, BackpressureController.dequeue, hq] using this

/-- Helper: the bound holds along any whole trace from any in-bound state. -/
theorem foldl_stepB_queue_le (cfg : BCfg) (ops : List BackpressureController.BOp) :
    ∀ s : BState × List Frame, s.1.queue.length ≤ cfg.max_queue_size →
      (ops.foldl (BackpressureController.stepB cfg) s).1.queue.length ≤
        cfg.max_queue_size := by
  induction ops with
  | nil => intro s h; exact h
  | cons op rest ih => intro s h; exact ih _ (stepB_queue_le cfg s op h)

/-- C6: along every interleaving of enqueue and dequeue operations starting
from a fresh controller, the queue size never exceeds max_queue_size. -/
theorem queue_bounded_C6 (cfg : BCfg) (ops : List BackpressureController.BOp) :
    (BackpressureController.runB cfg ops).1.queue.length ≤ cfg.max_queue_size := by
  exact foldl_stepB_queue_le cfg ops ({}, []) (by simp)

/-- Helper: along any trace, the delivered frames followed by the frames
still queued form a sublist of the already-consumed inputs followed by the
inputs of the remaining trace. -/
theorem foldl_stepB_sublist (cfg : BCfg) (ops : List BackpressureController.BOp) :
    ∀ (s : BState × List Frame) (L : List Frame),
      List.Sublist (s.2 ++ s.1.queue) L →
      List.Sublist
        ((ops.foldl (BackpressureController.stepB cfg) s).2 ++
          (ops.foldl (BackpressureController.stepB cfg) s).1.queue)
        (L ++ BackpressureController.enqInputs ops) := by
  induction ops with
  | nil => intro s L h; simpa [BackpressureController.enqInputs] using h
  | cons op rest ih =>
      intro s L h
      cases op with
      | enq f kf =>
          have hstep :
              List.Sublist
                ((BackpressureController.stepB cfg s (.enq f kf)).2 ++
                  (BackpressureController.stepB cfg s (.enq f kf)).1.queue)
                (L ++ [f]) := by
            show List.Sublist (s.2 ++ (BackpressureController.enqueue cfg s.1 f kf).1.queue) _
            rcases enqueue_queue_cases cfg s.1 f kf with hc | hc
            · rw [hc]
              exact h.trans (List.sublist_append_left L [f])
            · rw [hc, ← List.append_assoc]
              exact h.append (List.Sublist.refl [f])
          have := ih (BackpressureController.stepB cfg s (.enq f kf)) (L ++ [f]) hstep
          simpa [BackpressureController.enqInputs, List.append_assoc] using this
      | deq =>
          have hstep :
              (BackpressureController.stepB cfg s .deq).2 ++
                (BackpressureController.stepB cfg s .deq).1.queue = s.2 ++ s.1.queue := by
            cases hq : s.1.queue with
            | nil => simp [BackpressureController.stepB, BackpressureController.dequeue, hq]
            | cons a rest2 =>
                simp [BackpressureController.stepB, BackpressureController.dequeue, hq]
          have := ih (BackpressureController.stepB cfg s .deq) L (by rw [hstep]; exact h)
          simpa [BackpressureController.enqInputs] using this

/-- C7: over any interleaved trace, the sequence of frames delivered by
dequeue is a sublist (subsequence in order) of the sequence of frames
offered via enqueue; consequently, when the offered timesteps are strictly
increasing, so are the delivered ones. -/
theorem delivered_order_C7 (cfg : BCfg) (ops : List BackpressureController.BOp) :
    List.Sublist (BackpressureController.runB cfg ops).2
      (BackpressureController.enqInputs ops) ∧
    ((BackpressureController.enqInputs ops).Pairwise
        (fun a b => a.timestep < b.timestep) →
      (BackpressureController.runB cfg ops).2.Pairwise
        (fun a b => a.timestep < b.timestep)) := by
  have hsub :
      List.Sublist
        ((BackpressureController.runB cfg ops).2 ++
          (BackpressureController.runB cfg ops).1.queue)
        (BackpressureController.enqInputs ops) := by
    have := foldl_stepB_sublist cfg ops ({}, []) [] (by simp)
    simpa [BackpressureController.runB] using this
  have h1 : List.Sublist (BackpressureController.runB cfg ops).2
      (BackpressureController.enqInputs ops) :=
    (List.sublist_append_left _ _).trans hsub
  exact ⟨h1, fun hp => hp.sublist h1⟩

/-- C7 witness: the order theorem applied to a concrete trace of three
enqueued frames with increasing timesteps interleaved with dequeues. -/
theorem delivered_order_C7_witness :
    (BackpressureController.enqInputs
        [.enq ⟨1⟩ true, .enq ⟨2⟩ false, .deq, .enq ⟨3⟩ false, .deq, .deq]).Pairwise
      (fun a b => a.timestep < b.timestep) ∧
    (BackpressureController.runB {}
        [.enq ⟨1⟩ true, .enq ⟨2⟩ false, .deq, .enq ⟨3⟩ false, .deq, .deq]).2.Pairwise
      (fun a b => a.timestep < b.timestep) := by
  have hp : (BackpressureController.enqInputs
      [.enq ⟨1⟩ true, .enq ⟨2⟩ false, .deq, .enq ⟨3⟩ false, .deq, .deq]).Pairwise
      (fun a b : Frame => a.timestep < b.timestep) := by
    simp [BackpressureController.enqInputs]
  exact ⟨hp, (delivered_order_C7 {}
    [.enq ⟨1⟩ true, .enq ⟨2⟩ false, .deq, .enq ⟨3⟩ false, .deq, .deq]).2 hp⟩

/-- Helper: set.add grows the run set by at most one. -/
theorem setAdd_length_le (l : List String) (r : String) :
    (setAdd l r).length ≤ l.length + 1 := by
  unfold setAdd
  split
  · exact Nat.le_succ _
  · simp

/-- Helper: set.discard never grows the run set. -/
theorem setDiscard_length_le (l : List String) (r : String) :
    (setDiscard l r).length ≤ l.length :=
  List.length_filter_le _ l

/-- Helper: discarding a present run id strictly shrinks the run set. -/
theorem setDiscard_length_lt (l : List String) (r : String) (h : r ∈ l) :
    (setDiscard l r).length < l.length := by
  induction l with
  | nil => cases h
  | cons a rest ih =>
      by_cases ha : a = r
      · subst ha
        simp only [setDiscard, List.filter_cons]
        simp only [decide_not, decide_eq_true_eq] at *
        rw [if_neg (by simp)]
        exact Nat.lt_succ_of_le (List.length_filter_le _ rest)
      · have hr : r ∈ rest := by
          rcases List.mem_cons.1 h with h1 | h1
          · exact absurd h1.symm ha
          · exact h1
        simp only [setDiscard, List.filter_cons]
        rw [if_pos (by simp [ha])]
        simpa [setDiscard] using Nat.succ_lt_succ (ih hr)

/-- Helper: every connection-manager event preserves the configured
per-user limit. -/
theorem stepCM_max (s : CMState) (op : ConnectionManager.CMOp) :
    (ConnectionManager.stepCM s op).max_connections_per_user =
      s.max_connections_per_user := by
  cases op with
  | conn ws ctrl task r u =>
      simp only [ConnectionManager.stepCM, ConnectionManager.connect]
      by_cases hc : ConnectionManager.can_connect s u
      · rw [if_neg (by simp [hc])]
      · rw [if_pos (by simp [hc])]
  | disc r u => rfl

/-- Helper: every connection-manager event preserves the per-user quota
bound. -/
theorem stepCM_count_le (s : CMState) (op : ConnectionManager.CMOp)
    (h : ∀ u, ConnectionManager.get_user_connection_count s u ≤
      s.max_connections_per_user) :
    ∀ u, ConnectionManager.get_user_connection_count (ConnectionManager.stepCM s op) u ≤
      s.max_connections_per_user := by
  intro u
  cases op with
  | conn ws ctrl task r u0 =>
      simp only [ConnectionManager.stepCM, ConnectionManager.connect]
      by_cases hc : ConnectionManager.can_connect s u0
      · rw [if_neg (by simp [hc])]
        simp only [ConnectionManager.get_user_connection_count]
        by_cases hu : u = u0
        · subst hu
          simp only [if_pos rfl]
          have hlt : (s.user_connections u).length < s.max_connections_per_user := by
            simpa [ConnectionManager.can_connect,
              ConnectionManager.get_user_connection_count] using hc
          exact le_trans (setAdd_length_le _ _) hlt
        · simpa [hu] using h u
      · rw [if_pos (by simp [hc])]
        exact h u
  | disc r u0 =>
      simp only [ConnectionManager.stepCM, ConnectionManager.disconnect,
        ConnectionManager.get_user_connection_count]
      by_cases hu : u = u0
      · subst hu
        simp only [if_pos rfl]
        exact le_trans (setDiscard_length_le _ _) (h u)
      · simpa [hu] using h u

/-- Helper: the quota bound and the configured limit along any whole
trace. -/
theorem foldl_stepCM_inv (ops : List ConnectionManager.CMOp) :
    ∀ s : CMState,
      (∀ u, ConnectionManager.get_user_connection_count s u ≤
        s.max_connections_per_user) →
      (ops.foldl ConnectionManager.stepCM s).max_connections_per_user =
          s.max_connections_per_user ∧
      (∀ u, ConnectionManager.get_user_connection_count
          (ops.foldl ConnectionManager.stepCM s) u ≤ s.max_connections_per_user) := by
  induction ops with
  | nil => intro s h; exact ⟨rfl, h⟩
  | cons op rest ih =>
      intro s h
      have hstep := stepCM_count_le s op h
      have hmax := stepCM_max s op
      have hres := ih (ConnectionManager.stepCM s op) (by rw [hmax]; exact hstep)
      constructor
      · rw [List.foldl_cons, hres.1, hmax]
      · intro u
        rw [List.foldl_cons]
        rw [← hmax]
        exact hres.2 u

/-- C5: along every trace of connect and disconnect events from a fresh
manager with per-user limit N, no user ever holds more than N run ids;
while a user is at the limit every further connect is rejected with the
HTTP 429 quota error; and after disconnecting one of the held runs a new
connect is accepted. -/
theorem quota_C5 (limit : Nat) (ops : List ConnectionManager.CMOp) (u : String) :
    ConnectionManager.get_user_connection_count (ConnectionManager.runCM limit ops) u ≤
      limit ∧
    (ConnectionManager.get_user_connection_count (ConnectionManager.runCM limit ops) u =
        limit →
      ∀ ws ctrl task r,
        ConnectionManager.connect (ConnectionManager.runCM limit ops) ws ctrl task r u =
          .quotaExceeded429) ∧
    (∀ r, r ∈ (ConnectionManager.runCM limit ops).user_connections u →
      ∀ ws ctrl task r2, ∃ s2,
        ConnectionManager.connect
          (ConnectionManager.disconnect (ConnectionManager.runCM limit ops) r u)
          ws ctrl task r2 u = .accepted s2) := by
  have hinv := foldl_stepCM_inv ops { max_connections_per_user := limit }
    (by intro u2; simp [ConnectionManager.get_user_connection_count])
  have hmax : (ConnectionManager.runCM limit ops).max_connections_per_user = limit :=
    hinv.1
  have hle : ∀ u2, ConnectionManager.get_user_connection_count
      (ConnectionManager.runCM limit ops) u2 ≤ limit := hinv.2
  refine ⟨hle u, ?_, ?_⟩
  · intro heq ws ctrl task r
    simp only [ConnectionManager.connect]
    rw [if_pos]
    simp [ConnectionManager.can_connect, heq, hmax]
  · intro r hr ws ctrl task r2
    have hlt : ConnectionManager.get_user_connection_count
        (ConnectionManager.disconnect (ConnectionManager.runCM limit ops) r u) u <
          limit := by
      simp only [ConnectionManager.get_user_connection_count,
        ConnectionManager.disconnect, if_pos rfl]
      exact lt_of_lt_of_le (setDiscard_length_lt _ r hr) (hle u)
    have hcc : ConnectionManager.can_connect
        (ConnectionManager.disconnect (ConnectionManager.runCM limit ops) r u) u = true := by
      simp only [ConnectionManager.can_connect, decide_eq_true_eq]
      rw [show (ConnectionManager.disconnect (ConnectionManager.runCM limit ops) r
        u).max_connections_per_user = limit from hmax]
      exact hlt
    simp only [ConnectionManager.connect]
    rw [if_neg (by simp [hcc])]
    exact ⟨_, rfl⟩

/-- C5 witness: the quota theorem applied to the concrete trace in which
user u1 connects to runs r1, r2, r3 at limit 3: the count is 3, a fourth
connect is rejected with 429, and after disconnecting r1 a connect to r4 is
accepted. -/
theorem quota_C5_witness :
    ConnectionManager.get_user_connection_count
      (ConnectionManager.runCM 3
        [.conn 1 1 1 "r1" "u1", .conn 2 2 2 "r2" "u1", .conn 3 3 3 "r3" "u1"]) "u1" = 3 ∧
    ConnectionManager.connect
      (ConnectionManager.runCM 3
        [.conn 1 1 1 "r1" "u1", .conn 2 2 2 "r2" "u1", .conn 3 3 3 "r3" "u1"])
      4 4 4 "r4" "u1" = .quotaExceeded429 ∧
    (∃ s2, ConnectionManager.connect
      (ConnectionManager.disconnect
        (ConnectionManager.runCM 3
          [.conn 1 1 1 "r1" "u1", .conn 2 2 2 "r2" "u1", .conn 3 3 3 "r3" "u1"])
        "r1" "u1")
      5 5 5 "r5" "u1" = .accepted s2) := by
  have hcount : ConnectionManager.get_user_connection_count
      (ConnectionManager.runCM 3
        [.conn 1 1 1 "r1" "u1", .conn 2 2 2 "r2" "u1", .conn 3 3 3 "r3" "u1"]) "u1" = 3 := by
    rfl
  have hmem : "r1" ∈ (ConnectionManager.runCM 3
      [.conn 1 1 1 "r1" "u1", .conn 2 2 2 "r2" "u1", .conn 3 3 3 "r3" "u1"]).user_connections
        "u1" := by
    show "r1" ∈ ["r1", "r2", "r3"]
    simp
  have h := quota_C5 3
    [.conn 1 1 1 "r1" "u1", .conn 2 2 2 "r2" "u1", .conn 3 3 3 "r3" "u1"] "u1"
  exact ⟨hcount, h.2.1 hcount 4 4 4 "r4", h.2.2 "r1" hmem 5 5 5 "r5"⟩

/-- C9: an accepted connect keys all per-subscriber state by run id alone:
it binds the socket, controller and Redis-task maps at the run id,
overwriting whatever was there, leaves every other key untouched, and,
because the per-user quota tracks a set of run ids, a connect for a run id
the user already holds leaves the connection count of that user unchanged. -/
theorem connect_by_run_id_C9 (s : CMState) (ws ctrl task : Nat) (r u : String)
    (h : ConnectionManager.can_connect s u = true) :
    ∃ s2, ConnectionManager.connect s ws ctrl task r u = .accepted s2 ∧
      s2.active_connections r = some ws ∧
      s2.controllers r = some ctrl ∧
      s2.redis_tasks r = some task ∧
      (∀ k, k ≠ r → s2.active_connections k = s.active_connections k ∧
        s2.controllers k = s.controllers k ∧
        s2.redis_tasks k = s.redis_tasks k) ∧
      (r ∈ s.user_connections u →
        ConnectionManager.get_user_connection_count s2 u =
          ConnectionManager.get_user_connection_count s u) := by
  have hacc : ConnectionManager.connect s ws ctrl task r u = .accepted
      { s with
        active_connections := fun k => if k = r then some ws else s.active_connections k,
        controllers := fun k => if k = r then some ctrl else s.controllers k,
        redis_tasks := fun k => if k = r then some task else s.redis_tasks k,
        user_connections := fun k =>
          if k = u then setAdd (s.user_connections u) r
          else s.user_connections k } := by
    simp only [ConnectionManager.connect]
    rw [if_neg (by simp [h])]
  refine ⟨_, hacc, ?_, ?_, ?_, ?_, ?_⟩
  · simp
  · simp
  · simp
  · intro k hk
    simp [hk]
  · intro hr
    simp only [ConnectionManager.get_user_connection_count, if_pos rfl]
    rw [setAdd, if_pos hr]
    simp

/-- C9 witness: the theorem applied to a manager in which user u1 already
holds run r1 on socket 1: a second accepted connect for r1 with socket 2
rebinds r1 to socket 2 and leaves the quota count at 1. -/
theorem connect_by_run_id_C9_witness :
    ∃ s2, ConnectionManager.connect
        { active_connections := fun k => if k = "r1" then some 1 else none,
          controllers := fun k => if k = "r1" then some 1 else none,
          redis_tasks := fun k => if k = "r1" then some 1 else none,
          user_connections := fun k => if k = "u1" then ["r1"] else [] }
        2 2 2 "r1" "u1" = .accepted s2 ∧
      s2.active_connections "r1" = some 2 ∧
      ConnectionManager.get_user_connection_count s2 "u1" = 1 := by
  have h := connect_by_run_id_C9
    { active_connections := fun k => if k = "r1" then some 1 else none,
      controllers := fun k => if k = "r1" then some 1 else none,
      redis_tasks := fun k => if k = "r1" then some 1 else none,
      user_connections := fun k => if k = "u1" then ["r1"] else [] }
    2 2 2 "r1" "u1" (by decide)
  obtain ⟨s2, hacc, hws, -, -, -, hcnt⟩ := h
  refine ⟨s2, hacc, hws, ?_⟩
  rw [hcnt (by decide)]
  rfl
